import Mathlib

/-!
Shallow embedding of the noah-dog-modern slot game.

Sources embedded:
* `src/lib/game-logic.ts` — `generateSpinResult` (both drafts in the file),
  `calculatePayout`, `canPlaceBet`, `updateWallet`;
* `src/hooks/use-game-state.ts` — `processSpinMutation`, `updateWagerMutation`,
  `resetGameMutation`;
* `src/app/page.tsx` — `handleLeverPull`;
* `src/components/WalletDisplay.tsx` — `increaseWager`, `decreaseWager`;
* `src/unnamed/part_013` (storage module) — `DEFAULT_GAME_STATE`,
  `loadGameState`, `saveGameState`, `clearGameState`;
* `src/unnamed/part_004` — the `GameState` interface.

Modelling conventions: JavaScript numbers are modelled as `Int` (every value the
program manipulates is integral); `Math.random()` results are explicit rational
parameters in `[0,1)`; the DOM/react-query layer is modelled as explicit state
passing; `localStorage` content under the single key `noahDogGameState` is
modelled at the level of its JSON parse result (a stored string is represented
by `absent`, `unparsable`, or `parsed v` for its parse `v`, since
`JSON.parse ∘ JSON.stringify` is the identity on the JSON values the program
stores); the `typeof window === 'undefined'` SSR checks are modelled by an
explicit `browser : Bool` flag.
-/

/-- `interface GameState` from `src/unnamed/part_004`:
`{ wallet, wager, wins, losses : number }`. -/
structure GameState where
  wallet : Int
  wager : Int
  wins : Int
  losses : Int
deriving DecidableEq, Repr

/-- The two symbolic slot categories, `'noah' | 'dog'`. -/
inductive SlotType where
  | noah
  | dog
deriving DecidableEq, Repr

/-- The two outcomes, `'win' | 'loss'`. -/
inductive Outcome where
  | win
  | loss
deriving DecidableEq, Repr

/-- `interface SpinResult` as produced by `generateSpinResult`:
`{ outcome, type, image }`. -/
structure SpinResult where
  outcome : Outcome
  type : SlotType
  image : String
deriving DecidableEq, Repr

/-- JavaScript truthiness of a string value: every string except `""` is
truthy. Needed because `calculatePayout` tests `outcome = 'win'`, an
assignment expression whose value is the string `'win'`. -/
def jsTruthy (s : String) : Bool :=
  !(s == "")

/-- `generateSpinResult` (first draft, `src/lib/game-logic.ts` lines 14–27),
with the two `Math.random()` calls passed in as `r1 r2 : ℚ`:
`type = r1 < 0.5 ? 'noah' : 'dog'`; `outcome = type === 'noah' ? 'win' : 'loss'`;
`imageIndex = Math.floor(r2 * 12) + 1`; image path under `/public/...`. -/
def generateSpinResult (r1 r2 : ℚ) : SpinResult :=
  let type : SlotType := if r1 < 1/2 then .noah else .dog
  let outcome : Outcome := if type = .noah then .win else .loss
  let imageIndex : Int := ⌊r2 * 12⌋ + 1
  let image : String :=
    if type = .noah then "/public/noah/noah-" ++ toString imageIndex ++ ".jpg"
    else "/public/dogs/dog-" ++ toString imageIndex ++ ".jpg"
  { outcome := outcome, type := type, image := image }

/-- `generateSpinResult` (second draft, `src/lib/game-logic.ts` lines 76–89):
identical except the mapping is inverted (`type === 'dog' ? 'win' : 'loss'`)
and the image paths drop the `/public` prefix. -/
def generateSpinResultV2 (r1 r2 : ℚ) : SpinResult :=
  let type : SlotType := if r1 < 1/2 then .noah else .dog
  let outcome : Outcome := if type = .dog then .win else .loss
  let imageIndex : Int := ⌊r2 * 12⌋ + 1
  let image : String :=
    if type = .noah then "/noah/noah-" ++ toString imageIndex ++ ".jpg"
    else "/dogs/dog-" ++ toString imageIndex ++ ".jpg"
  { outcome := outcome, type := type, image := image }

set_option linter.unusedVariables false in
/-- `calculatePayout` from `src/lib/game-logic.ts` lines 38–44. The source
condition is `if (outcome = 'win')`: a single `=`, so it ASSIGNS `'win'` to
`outcome` and the condition is the string `'win'` itself, which is truthy;
the `else` branch is dead code. The `outcome` argument is therefore unused. -/
def calculatePayout (wager : Int) (outcome : Outcome) : Int :=
  if jsTruthy "win" then wager else -wager

/-- `canPlaceBet` from `src/lib/game-logic.ts` lines 55–57:
`wager > 0 && wager <= wallet`. -/
def canPlaceBet (wallet wager : Int) : Bool :=
  decide (wager > 0) && decide (wager ≤ wallet)

/-- `updateWallet` from `src/lib/game-logic.ts` lines 68–72:
`Math.max(0, current + change)`. -/
def updateWallet (current change : Int) : Int :=
  max 0 (current + change)

/-- `DEFAULT_GAME_STATE` from the storage module (`src/unnamed/part_013`). -/
def DEFAULT_GAME_STATE : GameState :=
  { wallet := 1000, wager := 50, wins := 0, losses := 0 }

/-- `processSpinMutation.mutationFn` from `src/hooks/use-game-state.ts`
lines 53–70, acting on the current cached state: add the payout to the
wallet and bump the matching counter. (The persistence call it also makes is
modelled separately in the lever-pull transition.) -/
def processSpinMutation (current : GameState) (outcome : Outcome) (payout : Int) :
    GameState :=
  { current with
    wallet := current.wallet + payout
    wins := if outcome = .win then current.wins + 1 else current.wins
    losses := if outcome = .loss then current.losses + 1 else current.losses }

/-- `updateWagerMutation.mutationFn` from `src/hooks/use-game-state.ts`
lines 72–87: replace the wager, keep everything else. -/
def updateWagerMutation (current : GameState) (newWager : Int) : GameState :=
  { current with wager := newWager }

/-- `resetGameMutation.mutationFn` from `src/hooks/use-game-state.ts`
lines 29–34: clears storage and resolves to the default state. -/
def resetGameMutation : GameState :=
  DEFAULT_GAME_STATE

/-- `increaseWager` from `src/components/WalletDisplay.tsx` lines 29–32:
`Math.min(wager + 100, maxWager, wallet)`. -/
def increaseWager (wager maxWager wallet : Int) : Int :=
  min (min (wager + 100) maxWager) wallet

/-- `decreaseWager` from `src/components/WalletDisplay.tsx` lines 34–37:
`Math.max(wager - 100, minWager)`. -/
def decreaseWager (wager minWager : Int) : Int :=
  max (wager - 100) minWager

/-- A JavaScript runtime value, as produced by `JSON.parse`. Enough structure
for the values this program reads and writes. -/
inductive JsValue where
  | null
  | bool (b : Bool)
  | num (n : Int)
  | str (s : String)
  | arr (elems : List JsValue)
  | obj (fields : List (String × JsValue))

/-- The content of `localStorage` under the key `noahDogGameState`, modelled at
the level of its JSON parse result: the item is absent, or is a string
`JSON.parse` rejects (the empty string, which the source also catches with
`!saved`, is subsumed here), or is a string that parses to `v`. -/
inductive StoredItem where
  | absent
  | unparsable
  | parsed (v : JsValue)

/-- The JSON value `JSON.stringify` produces for a `GameState` (keys in
insertion order: wallet, wager, wins, losses). -/
def encodeGameState (s : GameState) : JsValue :=
  .obj [("wallet", .num s.wallet), ("wager", .num s.wager),
        ("wins", .num s.wins), ("losses", .num s.losses)]

/-- `loadGameState` from `src/unnamed/part_013` lines 12–31. Outside the
browser it returns the default state; otherwise an absent (or empty) item or a
parse failure yields the default state, and a successful parse is returned
as-is — `parsed as GameState` is a compile-time cast with no runtime check.
The result is the runtime value handed to the caller, so it is a `JsValue`;
a `GameState` result appears as its encoding. -/
def loadGameState (browser : Bool) (item : StoredItem) : JsValue :=
  if !browser then encodeGameState DEFAULT_GAME_STATE
  else
    match item with
    | .absent => encodeGameState DEFAULT_GAME_STATE
    | .unparsable => encodeGameState DEFAULT_GAME_STATE
    | .parsed v => v

/-- `saveGameState` from `src/unnamed/part_013` lines 33–43: outside the
browser it does nothing; otherwise it stores `JSON.stringify(state)`, which
parses back to `encodeGameState state`. -/
def saveGameState (browser : Bool) (state : GameState) (item : StoredItem) :
    StoredItem :=
  if !browser then item else .parsed (encodeGameState state)

/-- `clearGameState` from `src/unnamed/part_013` lines 45–49. -/
def clearGameState (browser : Bool) (item : StoredItem) : StoredItem :=
  if browser then .absent else item

/-- `handleLeverPull` from `src/app/page.tsx` lines 22–59, as a transition on
the cached game state and the storage item. If `canPlaceBet` fails or a spin
is in progress the handler returns early and nothing changes (the commented-out
`placeBet` step never deducts the wager). Otherwise the spin result is drawn
from the two random samples `r1 r2`, the payout computed, and
`processSpin` applies it to the state and persists the new state. -/
def handleLeverPull (gameState : GameState) (isSpinning : Bool)
    (store : StoredItem) (r1 r2 : ℚ) : GameState × StoredItem :=
  if !(canPlaceBet gameState.wallet gameState.wager) then (gameState, store)
  else if isSpinning then (gameState, store)
  else
    let spinResult := generateSpinResult r1 r2
    let payout := calculatePayout gameState.wager spinResult.outcome
    let newState := processSpinMutation gameState spinResult.outcome payout
    (newState, saveGameState true newState store)

/-- `updateWager` at the UI level: the mutation replaces the wager and
persists the new state (`src/hooks/use-game-state.ts` lines 72–87). -/
def updateWagerFull (current : GameState) (newWager : Int) (store : StoredItem) :
    GameState × StoredItem :=
  let newState := updateWagerMutation current newWager
  (newState, saveGameState true newState store)

/-- C2. The claim says `calculatePayout` returns `-wager` on a loss; because
the source condition `outcome = 'win'` is an assignment (always truthy), the
code returns `+wager` on a loss: at wager 50 and outcome `loss` it returns
`50`, not `-50`, contradicting the repository's own doc comment and its unit
test `expect(calculatePayout(50, 'loss')).toBe(-50)`. -/
theorem calculatePayout_loss_bug :
    calculatePayout 50 Outcome.loss = 50 ∧ calculatePayout 50 Outcome.loss ≠ -50 := by
  decide

/-- C4. `canPlaceBet wallet wager` is `true` iff `wager > 0 ∧ wager ≤ wallet`;
in particular it is `false` whenever `wallet ≤ 0`. -/
theorem canPlaceBet_iff (wallet wager : Int) :
    (canPlaceBet wallet wager = true ↔ 0 < wager ∧ wager ≤ wallet) ∧
    (wallet ≤ 0 → canPlaceBet wallet wager = false) := by
  constructor
  · simp [canPlaceBet]
  · intro h
    simp [canPlaceBet]
    omega

/-- Witness for C4 at `wallet = 0`, `wager = 50`. -/
theorem canPlaceBet_iff_witness : canPlaceBet 0 50 = false :=
  (canPlaceBet_iff 0 50).2 (by decide)

/-- C10. `updateWagerMutation` changes only the wager: wallet, wins and
losses are kept. -/
theorem updateWagerMutation_frame (current : GameState) (newWager : Int) :
    (updateWagerMutation current newWager).wallet = current.wallet ∧
    (updateWagerMutation current newWager).wins = current.wins ∧
    (updateWagerMutation current newWager).losses = current.losses :=
  ⟨rfl, rfl, rfl⟩

/-- C5. In both drafts of `generateSpinResult`, for every pair of random
samples the `outcome` field is the image of the `type` field under one fixed
hardcoded mapping (first draft: noah ↦ win, dog ↦ loss; second draft:
dog ↦ win, noah ↦ loss), so a category is never observed with the result
mapped to the other category. -/
theorem generateSpinResult_outcome_det (r1 r2 : ℚ) :
    ((generateSpinResult r1 r2).outcome =
      (if (generateSpinResult r1 r2).type = SlotType.noah then Outcome.win
        else Outcome.loss)) ∧
    ((generateSpinResultV2 r1 r2).outcome =
      (if (generateSpinResultV2 r1 r2).type = SlotType.dog then Outcome.win
        else Outcome.loss)) := by
  unfold generateSpinResult generateSpinResultV2
  by_cases h : r1 < 1/2 <;> simp [h]

/-- C8 counterexample. A stored record that is valid JSON but not of the
`GameState` shape (here the bare number `42`) is returned as-is by
`loadGameState`, not replaced by the default state as the claim says. -/
theorem loadGameState_no_shape_check :
    loadGameState true (.parsed (.num 42)) = .num 42 ∧
    loadGameState true (.parsed (.num 42)) ≠ encodeGameState DEFAULT_GAME_STATE := by
  refine ⟨rfl, ?_⟩
  simp [loadGameState, encodeGameState]

/-- C8 amended. `loadGameState` never raises: absent (or empty) and
unparsable records yield the default state `{wallet 1000, wager 50, wins 0,
losses 0}`, but any record that parses is returned unchanged — the
`as GameState` cast performs no runtime shape validation. -/
theorem loadGameState_total_cases (v : JsValue) :
    loadGameState true .absent = encodeGameState DEFAULT_GAME_STATE ∧
    loadGameState true .unparsable = encodeGameState DEFAULT_GAME_STATE ∧
    loadGameState true (.parsed v) = v :=
  ⟨rfl, rfl, rfl⟩

/-- C9. In the browser, `loadGameState` right after `saveGameState s` returns
exactly the stored image of `s`, and the encoding is injective, so the state
read back is equal to `s`. -/
theorem save_load_roundtrip (s : GameState) (item : StoredItem) :
    loadGameState true (saveGameState true s item) = encodeGameState s ∧
    (∀ t : GameState, encodeGameState t = encodeGameState s → t = s) := by
  refine ⟨rfl, ?_⟩
  intro t h
  obtain ⟨a, b, c, d⟩ := s
  obtain ⟨a', b', c', d'⟩ := t
  simp [encodeGameState] at h
  simp_all

/-- Witness for C9 at the default state and an absent prior item. -/
theorem save_load_roundtrip_witness :
    loadGameState true (saveGameState true DEFAULT_GAME_STATE .absent) =
      encodeGameState DEFAULT_GAME_STATE ∧
    DEFAULT_GAME_STATE = DEFAULT_GAME_STATE :=
  ⟨(save_load_roundtrip DEFAULT_GAME_STATE .absent).1,
   (save_load_roundtrip DEFAULT_GAME_STATE .absent).2 DEFAULT_GAME_STATE rfl⟩

/-- C3. When `canPlaceBet` fails, `handleLeverPull` returns early: the game
state and the stored record are both left exactly as they were. -/
theorem handleLeverPull_rejected (s : GameState) (spinning : Bool)
    (store : StoredItem) (r1 r2 : ℚ)
    (h : canPlaceBet s.wallet s.wager = false) :
    handleLeverPull s spinning store r1 r2 = (s, store) := by
  simp [handleLeverPull, h]

/-- Witness for C3 at balance 100, wager 150. -/
theorem handleLeverPull_rejected_witness :
    canPlaceBet 100 150 = false ∧
    handleLeverPull ⟨100, 150, 0, 0⟩ false .absent 0 0 =
      (⟨100, 150, 0, 0⟩, .absent) :=
  ⟨by decide,
   handleLeverPull_rejected ⟨100, 150, 0, 0⟩ false .absent 0 0 (by decide)⟩

/-- C6. From any state with non-negative balance, every transition keeps the
balance non-negative: a lever pull (whether rejected, blocked by a running
spin, or resolved), a wager update, a reset, and the clamped `updateWallet`
helper all yield a balance that is at least 0. -/
theorem balance_nonneg (s : GameState) (spinning : Bool) (store : StoredItem)
    (r1 r2 : ℚ) (newWager c ch : Int) (h : 0 ≤ s.wallet) :
    0 ≤ (handleLeverPull s spinning store r1 r2).1.wallet ∧
    0 ≤ (updateWagerMutation s newWager).wallet ∧
    0 ≤ resetGameMutation.wallet ∧
    0 ≤ updateWallet c ch := by
  refine ⟨?_, h, by decide, le_max_left 0 _⟩
  by_cases hb : canPlaceBet s.wallet s.wager
  · by_cases hs : spinning
    · simp [handleLeverPull, hb, hs]
      exact h
    · have hw : 0 < s.wager := by
        have hb2 := hb
        simp [canPlaceBet] at hb2
        exact hb2.1
      simp [handleLeverPull, hb, hs, processSpinMutation, calculatePayout,
        jsTruthy]
      omega
  · simp only [Bool.not_eq_true] at hb
    simp [handleLeverPull, hb]
    exact h

/-- Witness for C6 at the default state. -/
theorem balance_nonneg_witness :
    0 ≤ (handleLeverPull ⟨1000, 50, 0, 0⟩ false .absent 0 0).1.wallet ∧
    0 ≤ (updateWagerMutation ⟨1000, 50, 0, 0⟩ 60).wallet ∧
    0 ≤ resetGameMutation.wallet ∧
    0 ≤ updateWallet (-5) 3 :=
  balance_nonneg ⟨1000, 50, 0, 0⟩ false .absent 0 0 60 (-5) 3 (by decide)

/-- C7 counterexample. With min 100, max 1000, balance 50 and current wager
150, `decreaseWager` yields 100, which is NOT inside the claimed interval
`[min, min(max, balance)] = [100, 50]`: the decrease step never clamps by the
balance, so the claim that the updated wager always lies in that interval is
false. -/
theorem decreaseWager_escapes_range :
    decreaseWager 150 100 = 100 ∧
    ¬(decreaseWager 150 100 ≤ min (1000 : Int) 50) := by
  decide

/-- C7 amended. `increaseWager` adds the 100 step and clamps only from above
by `min(max, balance)`; `decreaseWager` subtracts the step and clamps only
from below by `min`. Whenever the current wager already lies in
`[min, min(max, balance)]`, both updates keep it in that interval. -/
theorem wager_step_clamps (wager minWager maxWager wallet : Int)
    (h1 : minWager ≤ wager) (h2 : wager ≤ min maxWager wallet) :
    (increaseWager wager maxWager wallet = min (min (wager + 100) maxWager) wallet ∧
      decreaseWager wager minWager = max (wager - 100) minWager) ∧
    (minWager ≤ increaseWager wager maxWager wallet ∧
      increaseWager wager maxWager wallet ≤ min maxWager wallet) ∧
    (minWager ≤ decreaseWager wager minWager ∧
      decreaseWager wager minWager ≤ min maxWager wallet) := by
  refine ⟨⟨rfl, rfl⟩, ?_⟩
  unfold increaseWager decreaseWager
  simp only [min_def, max_def] at *
  split_ifs at * <;> omega

/-- Witness for C7 amended at wager 100, min 100, max 1000, balance 500. -/
theorem wager_step_clamps_witness :
    (increaseWager 100 1000 500 = min (min (100 + 100) 1000) 500 ∧
      decreaseWager 100 100 = max (100 - 100) 100) ∧
    (100 ≤ increaseWager 100 1000 500 ∧
      increaseWager 100 1000 500 ≤ min 1000 500) ∧
    (100 ≤ decreaseWager 100 100 ∧
      decreaseWager 100 100 ≤ min 1000 500) :=
  wager_step_clamps 100 100 1000 500 (by decide) (by decide)

set_option linter.unnecessarySeqFocus false in
/-- C1. With balance 1000 and wager 50 the claim predicts a resulting balance
of 1000 on a forced win and 900 on a forced loss. The code never deducts the
wager (the `placeBet` step of `handleLeverPull` is commented out) and
`calculatePayout` returns `+wager` even on a loss, so both a forced win
(first random sample 0) and a forced loss (first random sample 3/4) leave the
balance at 1050 — the counters, however, are bumped as claimed. This
contradicts the repository's own guide (lever flow step 3: deduct the wager)
and the payout unit tests. -/
theorem handleLeverPull_scenario_bug :
    (handleLeverPull ⟨1000, 50, 0, 0⟩ false .absent 0 0).1 =
      ⟨1050, 50, 1, 0⟩ ∧
    (handleLeverPull ⟨1000, 50, 0, 0⟩ false .absent (3/4) 0).1 =
      ⟨1050, 50, 0, 1⟩ ∧
    (handleLeverPull ⟨1000, 50, 0, 0⟩ false .absent 0 0).1.wallet ≠ 1000 ∧
    (handleLeverPull ⟨1000, 50, 0, 0⟩ false .absent (3/4) 0).1.wallet ≠ 900 := by
  have h1 : ((0 : ℚ) < 1/2) := by norm_num
  have h2 : ¬((3/4 : ℚ) < 1/2) := by norm_num
  refine ⟨?_, ?_, ?_, ?_⟩ <;>
    simp [handleLeverPull, canPlaceBet, generateSpinResult, processSpinMutation,
      calculatePayout, jsTruthy, h1, h2] <;> norm_num
